import Mathlib

/-!
Verification of the `/report` POST handler in `src/utils/mock_server.py`.

The handler is a Flask view function.  We embed the body of `report()` as a
pure Lean function.  JSON values are modelled by the inductive type `Json`
below; the Python-level operations the handler performs on the parsed value
(`field in data`, `data[field]`, `isinstance`) are modelled with their Python
semantics, including the cases in which they raise a `TypeError` (represented
with `Except String`), since the handler wraps everything in
`try ... except Exception as e: return jsonify({"error": str(e)}), 400`.
-/

namespace MockServer

/-- A JSON value, as produced by `request.get_json()` / `json.loads`.
The numeric value of a float is carried as a rational; the handler only ever
inspects the type tag of a float, never its value. -/
inductive Json where
  | null : Json
  | bool (b : Bool) : Json
  | int (n : Int) : Json
  | float (q : Rat) : Json
  | str (s : String) : Json
  | arr (elems : List Json) : Json
  | obj (entries : List (String × Json)) : Json

/-- The char list `needle` is an initial segment of `hay`
(helper for Python's substring containment on `str`). -/
def charsHavePre : List Char → List Char → Bool
  | [], _ => true
  | _ :: _, [] => false
  | a :: as, b :: bs => a == b && charsHavePre as bs

/-- The char list `needle` occurs contiguously inside `hay`. -/
def charsHaveSub (needle : List Char) : List Char → Bool
  | [] => charsHavePre needle []
  | b :: bs => charsHavePre needle (b :: bs) || charsHaveSub needle bs

/-- Python's `needle in hay` for two `str` values: substring containment. -/
def strContainsSub (hay needle : String) : Bool :=
  charsHaveSub needle.toList hay.toList

/-- Membership of a key in the association list of a JSON object
(Python `field in data` for a `dict`: key membership). -/
def hasKey (entries : List (String × Json)) (field : String) : Bool :=
  entries.any (fun kv => kv.1 == field)

/-- First binding of `field` in a JSON object's association list
(Python `dict` lookup; a `dict` cannot hold duplicate keys, so on the image
of a Python `dict` the first binding is the only one). -/
def pyFind (entries : List (String × Json)) (field : String) : Option Json :=
  (entries.find? (fun kv => kv.1 == field)).map (fun kv => kv.2)

/-- Python's `field in elems` for a `list`: element membership, where a
`str` compares equal only to an equal `str`. -/
def arrHasStr (elems : List Json) (field : String) : Bool :=
  elems.any (fun j => match j with | .str s => s == field | _ => false)

/-- Python's `field in data` where `field` is a `str` and `data` is the
Python value of a parsed JSON `data`:
* `dict` → key membership;
* `str` → substring containment;
* `list` → element membership (a `str` equals only an equal `str`);
* `None` / `bool` / `int` / `float` → `TypeError: argument of type ... is
  not iterable`, modelled as `.error`. -/
def pyContains (data : Json) (field : String) : Except String Bool :=
  match data with
  | .obj entries => .ok (hasKey entries field)
  | .str s => .ok (strContainsSub s field)
  | .arr elems => .ok (arrHasStr elems field)
  | .null => .error "argument of type NoneType is not iterable"
  | .bool _ => .error "argument of type bool is not iterable"
  | .int _ => .error "argument of type int is not iterable"
  | .float _ => .error "argument of type float is not iterable"

/-- Python's `data[field]` where `field` is a `str`:
* `dict` → lookup (`KeyError` if absent);
* `str` / `list` → `TypeError` (string/list indices must be integers);
* `None` / `bool` / `int` / `float` → `TypeError: not subscriptable`. -/
def pyGetItem (data : Json) (field : String) : Except String Json :=
  match data with
  | .obj entries =>
    match pyFind entries field with
    | some v => .ok v
    | none => .error field
  | .str _ => .error "string indices must be integers"
  | .arr _ => .error "list indices must be integers or slices, not str"
  | .null => .error "NoneType object is not subscriptable"
  | .bool _ => .error "bool object is not subscriptable"
  | .int _ => .error "int object is not subscriptable"
  | .float _ => .error "float object is not subscriptable"

/-- Python's `isinstance(x, str)` on a parsed JSON value. -/
def pyIsStr : Json → Bool
  | .str _ => true
  | _ => false

/-- Python's `isinstance(x, int)` on a parsed JSON value.  In Python, `bool`
is a subclass of `int`, so `isinstance(True, int)` is `True`: JSON booleans
pass this check. -/
def pyIsInt : Json → Bool
  | .int _ => true
  | .bool _ => true
  | _ => false

/-- Modelled from the spec: the spec's notion of an integer field value
("must be an integer (not float/string)") — a JSON value of integer kind.
Stated only to compare the spec's notion with the code's
`isinstance(..., int)` (`pyIsInt`), which additionally accepts booleans. -/
def specIsInteger : Json → Bool
  | .int _ => true
  | _ => false

/-- Shape discriminator: is this JSON value an object? -/
def Json.isObj : Json → Bool
  | .obj _ => true
  | _ => false

/-- Shape discriminator: is this JSON value `null`? -/
def Json.isNull : Json → Bool
  | .null => true
  | _ => false

/-- The list `required_fields = ["hostname", "uptime", "memory", "disk"]`
(line 17 of `mock_server.py`). -/
def requiredFields : List String := ["hostname", "uptime", "memory", "disk"]

/-- The list comprehension
`[field for field in required_fields if field not in data]`
(line 18): evaluates `field in data` left to right, propagating the first
`TypeError` raised. -/
def missingOf (data : Json) : List String → Except String (List String)
  | [] => .ok []
  | f :: fs =>
    match pyContains data f with
    | .error e => .error e
    | .ok present =>
      match missingOf data fs with
      | .error e => .error e
      | .ok rest => .ok (if present then rest else f :: rest)

/-- An HTTP response: the JSON body produced by `jsonify` and the status. -/
structure Response where
  body : Json
  status : Nat

/-- The error response `jsonify({"error": msg}), 400`. -/
def errResponse (msg : String) : Response :=
  ⟨Json.obj [("error", Json.str msg)], 400⟩

/-- The success response `jsonify({"message": "Report received"}), 201`. -/
def successResponse : Response :=
  ⟨Json.obj [("message", Json.str "Report received")], 201⟩

/-- Lines 17-32 of `report()`, the part after `data` is known non-`None`:
missing-key check, then the type check
`not isinstance(data["hostname"], str) or not isinstance(data["uptime"], int)`
(Python `or` short-circuits: `data["uptime"]` is only evaluated when
`data["hostname"]` is a `str`), then the 201 success.  `.error` is an
uncaught Python exception escaping to the handler's `except` clause.
The `print(... json.dumps(data, ...))` on line 30 cannot raise on a value
produced by JSON parsing and has no effect on the response. -/
def reportCore (data : Json) : Except String Response :=
  match missingOf data requiredFields with
  | .error e => .error e
  | .ok missingFields =>
    if missingFields ≠ [] then
      .ok (errResponse ("Missing fields: " ++ String.intercalate ", " missingFields))
    else
      match pyGetItem data "hostname" with
      | .error e => .error e
      | .ok h =>
        if pyIsStr h then
          match pyGetItem data "uptime" with
          | .error e => .error e
          | .ok u =>
            if pyIsInt u then
              .ok successResponse
            else
              .ok (errResponse "Invalid field types")
        else
          .ok (errResponse "Invalid field types")

/-- The `try ... except Exception as e: return jsonify({"error": str(e)}), 400`
wrapper (lines 8, 34-35) around the non-`None` path. -/
def handleData (data : Json) : Response :=
  match reportCore data with
  | .ok r => r
  | .error e => errResponse e

/-- The whole handler `report()` as a function of the outcome of
`data = request.get_json()`.  Modelled from the spec: the JSON-parsing step
is performed by the web framework (`flask.Request.get_json`), which is not
part of this repository's source; per the spec, "if parsing fails or yields
a null/absent value" the handler sees no data, so the parse outcome is an
`Option Json` with `none` for a parse failure or a JSON-`null` body (both
make `data is None` true on line 13). -/
def report : Option Json → Response
  | none => errResponse "Invalid JSON"
  | some data => handleData data

/-- A sequence of independent requests served by the handler: the server
keeps no state, so serving is a `map`. -/
def serve (requests : List (Option Json)) : List Response :=
  requests.map report

/-! ### Helper lemmas -/

/-- On a JSON object the missing-fields comprehension never raises and
computes the filter of the absent keys, in the order of the scanned list. -/
theorem missingOf_obj (entries : List (String × Json)) (fs : List String) :
    missingOf (Json.obj entries) fs = .ok (fs.filter (fun f => !hasKey entries f)) := by
  induction fs with
  | nil => rfl
  | cons f fs ih =>
    simp only [missingOf, pyContains, ih, List.filter]
    cases h : hasKey entries f <;> simp [h]

/-- On a JSON string the missing-fields comprehension never raises: Python
`field in data` is substring containment there. -/
theorem missingOf_str (s : String) (fs : List String) :
    missingOf (Json.str s) fs = .ok (fs.filter (fun f => !strContainsSub s f)) := by
  induction fs with
  | nil => rfl
  | cons f fs ih =>
    simp only [missingOf, pyContains, ih, List.filter]
    cases h : strContainsSub s f <;> simp [h]

/-- On a JSON array the missing-fields comprehension never raises: Python
`field in data` is element membership there. -/
theorem missingOf_arr (elems : List Json) (fs : List String) :
    missingOf (Json.arr elems) fs = .ok (fs.filter (fun f => !arrHasStr elems f)) := by
  induction fs with
  | nil => rfl
  | cons f fs ih =>
    simp only [missingOf, pyContains, ih, List.filter]
    cases h : arrHasStr elems f <;> simp [h]

/-- A key with a binding is a member of the object. -/
theorem hasKey_of_pyFind (entries : List (String × Json)) (f : String) (v : Json)
    (h : pyFind entries f = some v) : hasKey entries f = true := by
  induction entries with
  | nil => simp [pyFind] at h
  | cons kv rest ih =>
    simp only [pyFind, List.find?] at h
    simp only [hasKey, List.any_cons]
    cases hk : (kv.1 == f) with
    | true => simp
    | false =>
      rw [hk] at h
      simp only [Bool.false_or]
      exact ih h

/-- Appending further entries cannot change the first binding of a key that
is already bound. -/
theorem pyFind_append_of_some (entries extra : List (String × Json)) (f : String) (v : Json)
    (h : pyFind entries f = some v) : pyFind (entries ++ extra) f = some v := by
  induction entries with
  | nil => simp [pyFind] at h
  | cons kv rest ih =>
    simp only [pyFind, List.cons_append, List.find?] at h ⊢
    cases hk : (kv.1 == f) with
    | true => rw [hk] at h; simpa using h
    | false => rw [hk] at h; exact ih h

/-- Appending further entries preserves key membership. -/
theorem hasKey_append_of_true (entries extra : List (String × Json)) (f : String)
    (h : hasKey entries f = true) : hasKey (entries ++ extra) f = true := by
  simp only [hasKey] at h
  simp [hasKey, List.any_append, h]

/-- No missing-fields message coincides with the type-error message
(the first characters already differ). -/
theorem missingMsg_ne_invalid (x : String) :
    ("Missing fields: " ++ x) ≠ "Invalid field types" := by
  intro h
  have h2 : ("Missing fields: " ++ x).data = ("Invalid field types" : String).data := by rw [h]
  rw [String.data_append] at h2
  have h3 : ("Missing fields: " : String).data = 'M' :: "issing fields: ".data := rfl
  rw [h3] at h2
  simp at h2

/-- An object whose four required keys are present, whose first `hostname`
binding passes `isinstance(., str)` and whose first `uptime` binding passes
`isinstance(., int)`, is accepted with the 201 success response. -/
theorem report_obj_success (entries : List (String × Json)) (h u : Json)
    (hh : pyFind entries "hostname" = some h) (hu : pyFind entries "uptime" = some u)
    (hs : pyIsStr h = true) (hi : pyIsInt u = true)
    (hm : hasKey entries "memory" = true) (hd : hasKey entries "disk" = true) :
    report (some (Json.obj entries)) = successResponse := by
  have hhk := hasKey_of_pyFind entries "hostname" h hh
  have huk := hasKey_of_pyFind entries "uptime" u hu
  simp [report, handleData, reportCore, missingOf_obj, requiredFields, List.filter,
    hhk, huk, hm, hd, pyGetItem, hh, hu, hs, hi]

/-- An object with at least one required key absent is rejected with the
missing-fields response, whose message lists the absent keys in the order
of `required_fields`. -/
theorem report_obj_missing (entries : List (String × Json))
    (hne : requiredFields.filter (fun f => !hasKey entries f) ≠ []) :
    report (some (Json.obj entries)) =
      errResponse ("Missing fields: " ++
        String.intercalate ", " (requiredFields.filter (fun f => !hasKey entries f))) := by
  simp only [report, handleData, reportCore, missingOf_obj]
  rw [if_pos hne]

/-- Every branch of the handler body yields the success response, an error
response, or an exception. -/
theorem reportCore_shape (data : Json) :
    reportCore data = .ok successResponse ∨
      (∃ m, reportCore data = .ok (errResponse m)) ∨
      (∃ e, reportCore data = .error e) := by
  unfold reportCore
  split
  · right; right; exact ⟨_, rfl⟩
  · split
    · right; left; exact ⟨_, rfl⟩
    · split
      · right; right; exact ⟨_, rfl⟩
      · split
        · split
          · right; right; exact ⟨_, rfl⟩
          · split
            · left; rfl
            · right; left; exact ⟨_, rfl⟩
        · right; left; exact ⟨_, rfl⟩

/-- Every response of the handler is the success response or an error
response: the catch-all turns exceptions into error responses. -/
theorem report_shape (d : Option Json) :
    report d = successResponse ∨ ∃ msg, report d = errResponse msg := by
  cases d with
  | none => right; exact ⟨"Invalid JSON", rfl⟩
  | some data =>
    rcases reportCore_shape data with h | ⟨m, h⟩ | ⟨e, h⟩
    · left; simp [report, handleData, h]
    · right; exact ⟨m, by simp [report, handleData, h]⟩
    · right; exact ⟨e, by simp [report, handleData, h]⟩

/-! ### Claims -/

/-- Claim C1: for every request body that parses to a JSON object containing
a string `hostname`, an integer `uptime`, and keys `memory` and `disk` bound
to any values whatsoever, the handler returns status 201 with body exactly
the object with message "Report received". -/
theorem c1_valid_object_gets_201 (entries : List (String × Json)) (s : String) (n : Int)
    (hh : pyFind entries "hostname" = some (Json.str s))
    (hu : pyFind entries "uptime" = some (Json.int n))
    (hm : hasKey entries "memory" = true) (hd : hasKey entries "disk" = true) :
    report (some (Json.obj entries)) =
      ⟨Json.obj [("message", Json.str "Report received")], 201⟩ :=
  report_obj_success entries (Json.str s) (Json.int n) hh hu rfl rfl hm hd

/-- Witness for C1: the valid report of the spec scenario gets the 201
success response. -/
theorem c1_witness :
    pyFind [("hostname", Json.str "web01"), ("uptime", Json.int 123),
        ("memory", Json.str "2GB"), ("disk", Json.str "10GB")] "hostname" =
      some (Json.str "web01") ∧
    pyFind [("hostname", Json.str "web01"), ("uptime", Json.int 123),
        ("memory", Json.str "2GB"), ("disk", Json.str "10GB")] "uptime" =
      some (Json.int 123) ∧
    hasKey [("hostname", Json.str "web01"), ("uptime", Json.int 123),
        ("memory", Json.str "2GB"), ("disk", Json.str "10GB")] "memory" = true ∧
    hasKey [("hostname", Json.str "web01"), ("uptime", Json.int 123),
        ("memory", Json.str "2GB"), ("disk", Json.str "10GB")] "disk" = true ∧
    report (some (Json.obj [("hostname", Json.str "web01"), ("uptime", Json.int 123),
        ("memory", Json.str "2GB"), ("disk", Json.str "10GB")])) =
      ⟨Json.obj [("message", Json.str "Report received")], 201⟩ :=
  ⟨rfl, rfl, rfl, rfl,
    c1_valid_object_gets_201 _ "web01" 123 rfl rfl rfl rfl⟩

/-- Claim C2: for every request body that parses to a JSON object missing one
or more of the four required keys, the handler returns status 400 with an
error body whose message lists exactly the absent keys, in the declaration
order hostname, uptime, memory, disk, joined by comma-space. -/
theorem c2_missing_fields_message (entries : List (String × Json))
    (hne : requiredFields.filter (fun f => !hasKey entries f) ≠ []) :
    report (some (Json.obj entries)) =
      ⟨Json.obj [("error", Json.str ("Missing fields: " ++ String.intercalate ", "
        (requiredFields.filter (fun f => !hasKey entries f))))], 400⟩ :=
  report_obj_missing entries hne

/-- Witness for C2: an object lacking hostname and disk gets the 400
response naming exactly those two keys in declaration order. -/
theorem c2_witness :
    requiredFields.filter (fun f => !hasKey [("uptime", Json.int 1), ("memory", Json.null)] f) =
      ["hostname", "disk"] ∧
    report (some (Json.obj [("uptime", Json.int 1), ("memory", Json.null)])) =
      ⟨Json.obj [("error", Json.str "Missing fields: hostname, disk")], 400⟩ :=
  ⟨rfl, c2_missing_fields_message [("uptime", Json.int 1), ("memory", Json.null)] (by decide)⟩

/-- Claim C3: for every request body that does not parse to a JSON value, or
whose JSON value is null (both make `data is None` hold after
`request.get_json()`), the handler returns status 400 with body exactly
the Invalid JSON error object. -/
theorem c3_invalid_json_400 :
    report none = ⟨Json.obj [("error", Json.str "Invalid JSON")], 400⟩ := rfl

/-- Claim C4, amended: for every request body that parses to a JSON object
containing all four required keys, if `hostname` is not a string or `uptime`
is neither an integer nor a boolean (Python `isinstance(x, int)` accepts
booleans), the handler returns status 400 with body exactly the Invalid
field types error object. -/
theorem c4_amended_type_error (entries : List (String × Json)) (h u : Json)
    (hh : pyFind entries "hostname" = some h) (hu : pyFind entries "uptime" = some u)
    (hm : hasKey entries "memory" = true) (hd : hasKey entries "disk" = true)
    (hbad : pyIsStr h = false ∨ pyIsInt u = false) :
    report (some (Json.obj entries)) =
      ⟨Json.obj [("error", Json.str "Invalid field types")], 400⟩ := by
  have hhk := hasKey_of_pyFind entries "hostname" h hh
  have huk := hasKey_of_pyFind entries "uptime" u hu
  rcases hbad with hb | hb
  · simp [report, handleData, reportCore, missingOf_obj, requiredFields, List.filter,
      hhk, huk, hm, hd, pyGetItem, hh, hu, hb, errResponse]
  · cases hs : pyIsStr h with
    | false =>
      simp [report, handleData, reportCore, missingOf_obj, requiredFields, List.filter,
        hhk, huk, hm, hd, pyGetItem, hh, hu, hs, errResponse]
    | true =>
      simp [report, handleData, reportCore, missingOf_obj, requiredFields, List.filter,
        hhk, huk, hm, hd, pyGetItem, hh, hu, hs, hb, errResponse]

/-- Counterexample to C4 as stated: a report whose `uptime` is the boolean
true — all four keys present, `hostname` a string, `uptime` not an integer
in the sense of the spec — is answered with 201, not 400, because Python
`isinstance(True, int)` holds. -/
theorem c4_counterexample :
    pyFind [("hostname", Json.str "web01"), ("uptime", Json.bool true),
        ("memory", Json.str "2GB"), ("disk", Json.str "10GB")] "hostname" =
      some (Json.str "web01") ∧
    pyFind [("hostname", Json.str "web01"), ("uptime", Json.bool true),
        ("memory", Json.str "2GB"), ("disk", Json.str "10GB")] "uptime" =
      some (Json.bool true) ∧
    specIsInteger (Json.bool true) = false ∧
    report (some (Json.obj [("hostname", Json.str "web01"), ("uptime", Json.bool true),
        ("memory", Json.str "2GB"), ("disk", Json.str "10GB")])) =
      ⟨Json.obj [("message", Json.str "Report received")], 201⟩ :=
  ⟨rfl, rfl, rfl, rfl⟩

/-- Witness for C4 (amended): a numeric `hostname` with all four keys
present gets the Invalid field types response. -/
theorem c4_witness :
    pyIsStr (Json.int 42) = false ∧
    report (some (Json.obj [("hostname", Json.int 42), ("uptime", Json.int 123),
        ("memory", Json.str "x"), ("disk", Json.str "y")])) =
      ⟨Json.obj [("error", Json.str "Invalid field types")], 400⟩ :=
  ⟨rfl, c4_amended_type_error _ (Json.int 42) (Json.int 123) rfl rfl rfl rfl (Or.inl rfl)⟩

/-- Claim C5: for every request the response status is 201 or 400, and on
400 the body is an error object with some message: every failure, including
an exception, is caught by the catch-all and converted to a client error;
no request crashes the handler or yields a 5xx status. -/
theorem c5_status_201_or_400 (d : Option Json) :
    (report d).status = 201 ∨
      ((report d).status = 400 ∧ ∃ msg, (report d).body = Json.obj [("error", Json.str msg)]) := by
  rcases report_shape d with h | ⟨msg, h⟩
  · left; rw [h]; rfl
  · right; rw [h]; exact ⟨rfl, msg, rfl⟩

/-- Claim C6: key presence is checked before field types: an object with a
required key absent always gets the Missing fields error and never the
Invalid field types error, whatever the types of the present fields. -/
theorem c6_missing_beats_type_check (entries : List (String × Json)) (f : String)
    (hf : f ∈ requiredFields) (hmiss : hasKey entries f = false) :
    (∃ m, m ≠ [] ∧ report (some (Json.obj entries)) =
        ⟨Json.obj [("error", Json.str ("Missing fields: " ++ String.intercalate ", " m))], 400⟩) ∧
    report (some (Json.obj entries)) ≠
      ⟨Json.obj [("error", Json.str "Invalid field types")], 400⟩ := by
  have hfm : f ∈ requiredFields.filter (fun g => !hasKey entries g) := by
    simp [List.mem_filter, hf, hmiss]
  have hne : requiredFields.filter (fun g => !hasKey entries g) ≠ [] :=
    List.ne_nil_of_mem hfm
  have hrep := report_obj_missing entries hne
  constructor
  · exact ⟨_, hne, hrep⟩
  · rw [hrep]
    intro hcontra
    simp only [errResponse, Response.mk.injEq, Json.obj.injEq, List.cons.injEq,
      Prod.mk.injEq, Json.str.injEq, and_true, true_and] at hcontra
    exact missingMsg_ne_invalid _ hcontra

/-- Witness for C6: an object whose only key is a wrongly-typed `hostname`
and which lacks `uptime` gets the Missing fields error, not the Invalid
field types error. -/
theorem c6_witness :
    "uptime" ∈ requiredFields ∧
    hasKey [("hostname", Json.int 42)] "uptime" = false ∧
    ((∃ m, m ≠ [] ∧ report (some (Json.obj [("hostname", Json.int 42)])) =
        ⟨Json.obj [("error", Json.str ("Missing fields: " ++ String.intercalate ", " m))], 400⟩) ∧
      report (some (Json.obj [("hostname", Json.int 42)])) ≠
        ⟨Json.obj [("error", Json.str "Invalid field types")], 400⟩) :=
  ⟨by decide, rfl, c6_missing_beats_type_check [("hostname", Json.int 42)] "uptime" (by decide) rfl⟩

/-- Claim C7: the handler is a deterministic, stateless function of the
request body: in any two request sequences, positions carrying the same
body receive identical responses — no state accumulates across requests. -/
theorem c7_deterministic_stateless (reqs₁ reqs₂ : List (Option Json)) (i j : Nat)
    (h : reqs₁[i]? = reqs₂[j]?) : (serve reqs₁)[i]? = (serve reqs₂)[j]? := by
  simp [serve, List.getElem?_map, h]

/-- Witness for C7: the same body at position 1 of one sequence and at
position 0 of another receives the same response. -/
theorem c7_witness :
    ([some (Json.obj [("hostname", Json.str "a")]), none] :
        List (Option Json))[1]? =
      ([none] : List (Option Json))[0]? ∧
    (serve [some (Json.obj [("hostname", Json.str "a")]), none])[1]? =
      (serve [none])[0]? :=
  ⟨rfl, c7_deterministic_stateless _ _ 1 0 rfl⟩

/-- Claim C8: extra keys beyond the four required ones are accepted and
ignored: appending any further entries to a valid report leaves the
response the 201 success. -/
theorem c8_extra_keys_ignored (entries extra : List (String × Json)) (s : String) (n : Int)
    (hh : pyFind entries "hostname" = some (Json.str s))
    (hu : pyFind entries "uptime" = some (Json.int n))
    (hm : hasKey entries "memory" = true) (hd : hasKey entries "disk" = true) :
    report (some (Json.obj (entries ++ extra))) =
      ⟨Json.obj [("message", Json.str "Report received")], 201⟩ :=
  report_obj_success (entries ++ extra) (Json.str s) (Json.int n)
    (pyFind_append_of_some entries extra _ _ hh)
    (pyFind_append_of_some entries extra _ _ hu)
    rfl rfl
    (hasKey_append_of_true entries extra _ hm)
    (hasKey_append_of_true entries extra _ hd)

/-- Witness for C8: a valid report with two extra entries appended still
gets the 201 success response. -/
theorem c8_witness :
    pyFind [("hostname", Json.str "web01"), ("uptime", Json.int 123),
        ("memory", Json.str "2GB"), ("disk", Json.str "10GB")] "hostname" =
      some (Json.str "web01") ∧
    report (some (Json.obj ([("hostname", Json.str "web01"), ("uptime", Json.int 123),
        ("memory", Json.str "2GB"), ("disk", Json.str "10GB")] ++
        [("datacenter", Json.str "eu-1"), ("rack", Json.int 7)]))) =
      ⟨Json.obj [("message", Json.str "Report received")], 201⟩ :=
  ⟨rfl, c8_extra_keys_ignored _ [("datacenter", Json.str "eu-1"), ("rack", Json.int 7)]
    "web01" 123 rfl rfl rfl rfl⟩

/-- Claim C9: a JSON boolean passes the integer check for `uptime`: with a
string `hostname`, `memory` and `disk` present, and `uptime` a boolean, the
handler returns 201 — Python `isinstance(x, int)` holds of booleans — even
though a boolean is not an integer in the sense of the spec. -/
theorem c9_bool_uptime_gets_201 (entries : List (String × Json)) (s : String) (b : Bool)
    (hh : pyFind entries "hostname" = some (Json.str s))
    (hu : pyFind entries "uptime" = some (Json.bool b))
    (hm : hasKey entries "memory" = true) (hd : hasKey entries "disk" = true) :
    pyIsInt (Json.bool b) = true ∧ specIsInteger (Json.bool b) = false ∧
    report (some (Json.obj entries)) =
      ⟨Json.obj [("message", Json.str "Report received")], 201⟩ :=
  ⟨rfl, rfl, report_obj_success entries (Json.str s) (Json.bool b) hh hu rfl rfl hm hd⟩

/-- Witness for C9: a report whose `uptime` is true gets the 201 success. -/
theorem c9_witness :
    pyFind [("hostname", Json.str "w"), ("uptime", Json.bool true),
        ("memory", Json.null), ("disk", Json.null)] "uptime" = some (Json.bool true) ∧
    (pyIsInt (Json.bool true) = true ∧ specIsInteger (Json.bool true) = false ∧
      report (some (Json.obj [("hostname", Json.str "w"), ("uptime", Json.bool true),
          ("memory", Json.null), ("disk", Json.null)])) =
        ⟨Json.obj [("message", Json.str "Report received")], 201⟩) :=
  ⟨rfl, c9_bool_uptime_gets_201 _ "w" true rfl rfl rfl rfl⟩

/-- Claim C10: for every request body parsing to a non-null JSON value that
is not an object — an array, string, number, or boolean — the handler never
returns 201: the status is 400, via a missing-fields rejection or a caught
exception from the membership test or the field access. -/
theorem c10_non_object_never_201 (j : Json)
    (hobj : Json.isObj j = false) (hnull : Json.isNull j = false) :
    (report (some j)).status = 400 := by
  cases j with
  | null => simp [Json.isNull] at hnull
  | obj entries => simp [Json.isObj] at hobj
  | bool b => rfl
  | int n => rfl
  | float q => rfl
  | str s =>
    cases hm : requiredFields.filter (fun f => !strContainsSub s f) with
    | nil => simp [report, handleData, reportCore, missingOf_str, hm, pyGetItem, errResponse]
    | cons a as => simp [report, handleData, reportCore, missingOf_str, hm, errResponse]
  | arr elems =>
    cases hm : requiredFields.filter (fun f => !arrHasStr elems f) with
    | nil => simp [report, handleData, reportCore, missingOf_arr, hm, pyGetItem, errResponse]
    | cons a as => simp [report, handleData, reportCore, missingOf_arr, hm, errResponse]

/-- Witness for C10: a bare JSON number is answered with status 400. -/
theorem c10_witness :
    Json.isObj (Json.int 5) = false ∧ Json.isNull (Json.int 5) = false ∧
    (report (some (Json.int 5))).status = 400 :=
  ⟨rfl, rfl, c10_non_object_never_201 (Json.int 5) rfl rfl⟩

end MockServer
